import Mathlib

/-!
Verification of the Store-Rating-Platform server against its specification.

The embedding translates, from the repository's source:
  * the Drizzle schema and Zod validation schemas (shared/schema.ts),
  * the storage layer `DatabaseStorage` (server/storage.ts),
  * the Express route handlers (server/routes.ts).

JavaScript numbers are modelled as exact fractions (`JNum`); JSON response
bodies as a small `Json` AST; the database as in-memory lists of rows.
`bcrypt.hash` and `bcrypt.compare` are abstract function parameters of the
handlers that use them.
-/

/-- Model of a JavaScript number as an exact fraction `num / den`.
JSON numbers always have a positive denominator; `den` is kept as a raw `Nat`
so that all operations compute by kernel reduction. -/
structure JNum where
  num : Int
  den : Nat
deriving DecidableEq

/-- Less-or-equal on fractions (correct for positive denominators),
modelling JavaScript `<=` on numbers. -/
def JNum.le (a b : JNum) : Bool :=
  decide (a.num * (b.den : Int) ≤ b.num * (a.den : Int))

/-- Addition of fractions, modelling JavaScript `+`. -/
def JNum.add (a b : JNum) : JNum :=
  ⟨a.num * (b.den : Int) + b.num * (a.den : Int), a.den * b.den⟩

/-- Division of a fraction by a natural count, modelling the SQL `avg`'s
division of `sum` by `count`. -/
def JNum.divNat (a : JNum) (n : Nat) : JNum :=
  ⟨a.num, a.den * n⟩

/-- Models JavaScript `Number.prototype.toFixed(2)` on an exact nonnegative
fraction: the decimal rendering of `round(q * 100) / 100` with the
fractional part padded to two digits (round half up, the idealisation of
`toFixed` on exact values). -/
def JNum.toFixed2 (q : JNum) : String :=
  let n : Int := Int.fdiv (q.num * 200 + (q.den : Int)) (2 * (q.den : Int))
  let i := n / 100
  let f := n % 100
  toString i ++ "." ++ (if f < 10 then "0" ++ toString f else toString f)

/-- JSON values, used to model response bodies shaped by the route handlers. -/
inductive Json where
  | null
  | str (s : String)
  | num (q : JNum)
  | jbool (b : Bool)
  | arr (xs : List Json)
  | obj (fields : List (String × Json))

mutual

/-- Whether a key occurs in any object anywhere inside a JSON value. -/
def Json.hasKey (k : String) : Json → Bool
  | .obj fs => Json.hasKeyFields k fs
  | .arr xs => Json.hasKeyList k xs
  | _ => false

/-- Whether a key occurs inside any element of a JSON array. -/
def Json.hasKeyList (k : String) : List Json → Bool
  | [] => false
  | x :: xs => Json.hasKey k x || Json.hasKeyList k xs

/-- Whether a key occurs in a field list: as a field name or inside a value. -/
def Json.hasKeyFields (k : String) : List (String × Json) → Bool
  | [] => false
  | f :: fs => f.1 = k || Json.hasKey k f.2 || Json.hasKeyFields k fs

end

/-- Row of the `users` table (shared/schema.ts); timestamps omitted. -/
structure User where
  id : Nat
  name : String
  email : String
  password : String
  address : Option String
  role : String
deriving DecidableEq

/-- Row of the `stores` table; `averageRating` is a decimal column rendered
as a string, as in the schema. Timestamps omitted. -/
structure Store where
  id : Nat
  name : String
  email : String
  address : String
  ownerId : Nat
  averageRating : String
  totalRatings : Nat
deriving DecidableEq

/-- Row of the `ratings` table; timestamps omitted, list order stands in for
`createdAt` order (rows are only ever appended). -/
structure Rating where
  id : Nat
  userId : Nat
  storeId : Nat
  rating : JNum
  review : Option String
deriving DecidableEq

/-- The relational database state: the three tables. -/
structure DB where
  users : List User
  stores : List Store
  ratings : List Rating
deriving DecidableEq

/-- The denormalized user snapshot stored in the session at login. -/
structure SessionUser where
  id : Nat
  name : String
  email : String
  role : String
deriving DecidableEq

/-- Express session data (`SessionData` declaration in server/routes.ts). -/
structure Session where
  userId : Option Nat
  user : Option SessionUser
deriving DecidableEq

/-- The special characters of the password regex in shared/schema.ts. -/
def specialChars : List Char := "!@#$%^&*(),.?\x22\x7b\x7d|<>".toList

/-- Models the password complexity regex of shared/schema.ts: at least one
uppercase letter and at least one special character. -/
def passwordComplexOk (p : String) : Bool :=
  p.toList.any (fun c => c.isUpper) && p.toList.any (fun c => specialChars.contains c)

/-- Shallow model of `z.string().email()`: contains an `@` and a dot and no
space. The claims under verification do not depend on the exact regex. -/
def emailOk (e : String) : Bool :=
  e.toList.contains '@' && e.toList.contains '.' && !(e.toList.contains ' ')

/-- The role enum of `insertUserSchema` in shared/schema.ts. -/
def roleValues : List String := ["admin", "user", "store_owner"]

/-- A validated user-insert payload (`InsertUser` in shared/schema.ts). -/
structure InsertUser where
  name : String
  email : String
  password : String
  address : Option String
  role : String
deriving DecidableEq

/-- Request body of POST /api/auth/register and POST /api/users. `role` is
`none` when the field is absent (the Zod schema then defaults it). -/
structure RegisterBody where
  name : String
  email : String
  password : String
  address : Option String
  role : Option String
deriving DecidableEq

/-- Models `insertUserSchema.parse`: field checks in declaration order,
returning the first failing constraint's message. The `role` field is
`z.enum(["admin", "user", "store_owner"]).default("user")`: a supplied role
is kept, only an absent role defaults to "user". -/
def insertUserSchemaParse (b : RegisterBody) : Except String InsertUser :=
  if b.name.length < 20 then .error "Name must be at least 20 characters"
  else if 60 < b.name.length then .error "Name must not exceed 60 characters"
  else if !emailOk b.email then .error "Invalid email format"
  else if b.password.length < 8 then .error "Password must be at least 8 characters"
  else if 16 < b.password.length then .error "Password must not exceed 16 characters"
  else if !passwordComplexOk b.password then
    .error "Password must contain at least one uppercase letter and one special character"
  else if 400 < (b.address.getD "").length then .error "Address must not exceed 400 characters"
  else match b.role with
    | none => .ok ⟨b.name, b.email, b.password, b.address, "user"⟩
    | some r =>
      if roleValues.contains r then .ok ⟨b.name, b.email, b.password, b.address, r⟩
      else .error "Invalid enum value"

/-- Request body of POST /api/auth/login. -/
structure LoginBody where
  email : String
  password : String
deriving DecidableEq

/-- Models `loginSchema.parse`. -/
def loginSchemaParse (b : LoginBody) : Except String LoginBody :=
  if !emailOk b.email then .error "Invalid email format"
  else if b.password.length < 1 then .error "Password is required"
  else .ok b

/-- Request body of POST /api/auth/change-password. -/
structure ChangePasswordBody where
  currentPassword : String
  newPassword : String
deriving DecidableEq

/-- Models `changePasswordSchema.parse`. -/
def changePasswordSchemaParse (b : ChangePasswordBody) : Except String ChangePasswordBody :=
  if b.currentPassword.length < 1 then .error "Current password is required"
  else if b.newPassword.length < 8 then .error "Password must be at least 8 characters"
  else if 16 < b.newPassword.length then .error "Password must not exceed 16 characters"
  else if !passwordComplexOk b.newPassword then
    .error "Password must contain at least one uppercase letter and one special character"
  else .ok b

/-- A validated store-insert payload (`InsertStore` in shared/schema.ts). -/
structure InsertStore where
  name : String
  email : String
  address : String
  ownerId : Nat
deriving DecidableEq

/-- Request body of POST /api/stores. -/
structure StoreBody where
  name : String
  email : String
  address : String
  ownerId : Nat
deriving DecidableEq

/-- Models `insertStoreSchema.parse`. -/
def insertStoreSchemaParse (b : StoreBody) : Except String InsertStore :=
  if b.name.length < 1 then .error "Store name is required"
  else if 255 < b.name.length then .error "Store name must not exceed 255 characters"
  else if !emailOk b.email then .error "Invalid email format"
  else if b.address.length < 1 then .error "Address is required"
  else if 400 < b.address.length then .error "Address must not exceed 400 characters"
  else .ok ⟨b.name, b.email, b.address, b.ownerId⟩

/-- A validated rating-insert payload (`InsertRating` in shared/schema.ts). -/
structure InsertRating where
  userId : Nat
  storeId : Nat
  rating : JNum
  review : Option String
deriving DecidableEq

/-- Request body of POST /api/ratings. A `userId` field may be supplied by
the client but the handler overwrites it from the session before parsing. -/
structure RatingBody where
  userId : Option JNum
  storeId : Nat
  rating : JNum
  review : Option String
deriving DecidableEq

/-- Models `insertRatingSchema.parse({...req.body, userId: req.session.userId})`
from the POST /api/ratings handler: the body's `userId` is overwritten by the
session's userId before validation; `rating` is checked by
`z.number().min(1).max(5)` — bounds only, no integrality check; `review` is
optional with at most 1000 characters. -/
def insertRatingSchemaParse (sessionUserId : Nat) (b : RatingBody) : Except String InsertRating :=
  if !(JNum.le ⟨1, 1⟩ b.rating) then .error "Rating must be at least 1"
  else if !(JNum.le b.rating ⟨5, 1⟩) then .error "Rating must not exceed 5"
  else if 1000 < (b.review.getD "").length then .error "Review must not exceed 1000 characters"
  else .ok ⟨sessionUserId, b.storeId, b.rating, b.review⟩

/-- Models storage.getUser: point lookup by id. -/
def getUser (db : DB) (id : Nat) : Option User :=
  db.users.find? (fun u => u.id = id)

/-- Models storage.getUserByEmail: point lookup by email. -/
def getUserByEmail (db : DB) (email : String) : Option User :=
  db.users.find? (fun u => u.email = email)

/-- Models storage.createUser: hashes the password (the bcrypt hash is the
abstract `hash` parameter) and inserts the row with a fresh serial id. -/
def createUser (hash : String → String) (db : DB) (d : InsertUser) : DB × User :=
  let u : User := ⟨db.users.length + 1, d.name, d.email, hash d.password, d.address, d.role⟩
  ({ db with users := db.users ++ [u] }, u)

/-- Models storage.updateUserPassword. -/
def updateUserPassword (db : DB) (id : Nat) (hashedPassword : String) : DB :=
  { db with users := db.users.map (fun u => if u.id = id then { u with password := hashedPassword } else u) }

/-- Models storage.getAllUsers: all users ordered by name ascending. -/
def getAllUsers (db : DB) : List User :=
  db.users.insertionSort (fun a b => a.name ≤ b.name)

/-- Models storage.createStore: insert with the schema defaults
averageRating "0.00" and totalRatings 0. -/
def createStore (db : DB) (d : InsertStore) : DB × Store :=
  let s : Store := ⟨db.stores.length + 1, d.name, d.email, d.address, d.ownerId, "0.00", 0⟩
  ({ db with stores := db.stores ++ [s] }, s)

/-- Models storage.getAllStores: all stores ordered by name ascending. -/
def getAllStores (db : DB) : List Store :=
  db.stores.insertionSort (fun a b => a.name ≤ b.name)

/-- Models storage.getStoreById. -/
def getStoreById (db : DB) (id : Nat) : Option Store :=
  db.stores.find? (fun s => s.id = id)

/-- Models storage.getStoresByOwner. -/
def getStoresByOwner (db : DB) (ownerId : Nat) : List Store :=
  db.stores.filter (fun s => s.ownerId = ownerId)

/-- Substring containment, modelling SQL `LIKE '%query%'`. -/
def strContains (hay q : String) : Bool :=
  decide (q.toList <:+: hay.toList)

/-- Models storage.searchStores: substring match on name or address,
ordered by name ascending. -/
def searchStores (db : DB) (q : String) : List Store :=
  (db.stores.filter (fun s => strContains s.name q || strContains s.address q)).insertionSort
    (fun a b => a.name ≤ b.name)

/-- The ratings rows whose storeId matches: the rows the SQL aggregate of
updateStoreRating ranges over. -/
def ratingsForStore (db : DB) (storeId : Nat) : List Rating :=
  db.ratings.filter (fun r => r.storeId = storeId)

/-- Sum of the rating values of a list of rows. -/
def ratingSum (l : List Rating) : JNum :=
  l.foldr (fun r acc => JNum.add r.rating acc) ⟨0, 1⟩

/-- Models the SQL `avg(rating)` over a store's ratings: `none` models the
SQL NULL produced when no rows match (the only falsy case of the handler's
`result.avgRating ?` test — a non-null numeric string is nonempty, hence
truthy). -/
def storeAvg (db : DB) (storeId : Nat) : Option JNum :=
  let l := ratingsForStore db storeId
  if l.length = 0 then none else some (JNum.divNat (ratingSum l) l.length)

/-- The string written into averageRating by updateStoreRating:
`result.avgRating ? parseFloat(result.avgRating).toFixed(2) : "0.00"`. -/
def avgString (db : DB) (storeId : Nat) : String :=
  match storeAvg db storeId with
  | none => "0.00"
  | some q => q.toFixed2

/-- Models storage.updateStoreRating: recomputes avg/count over all ratings
for the store and writes them onto the store row. -/
def updateStoreRating (db : DB) (storeId : Nat) : DB :=
  let cnt := (ratingsForStore db storeId).length
  let newAvg := avgString db storeId
  { db with stores := db.stores.map (fun s =>
      if s.id = storeId then { s with averageRating := newAvg, totalRatings := cnt } else s) }

/-- Models storage.createRating: insert with a fresh serial id, then
recompute the store aggregate. -/
def createRating (db : DB) (d : InsertRating) : DB × Rating :=
  let r : Rating := ⟨db.ratings.length + 1, d.userId, d.storeId, d.rating, d.review⟩
  let db1 := { db with ratings := db.ratings ++ [r] }
  (updateStoreRating db1 d.storeId, r)

/-- Models storage.updateRating: `.set(ratingData)` on the rows matching
(userId, storeId), then recompute; returns the updated row (the first match,
post-update), `none` when no row matched. -/
def updateRating (db : DB) (userId storeId : Nat) (d : InsertRating) : DB × Option Rating :=
  let upd := fun (r : Rating) =>
    if r.userId = userId ∧ r.storeId = storeId then
      { r with userId := d.userId, storeId := d.storeId, rating := d.rating, review := d.review }
    else r
  let db1 := { db with ratings := db.ratings.map upd }
  let ret := (db.ratings.find? (fun r => r.userId = userId ∧ r.storeId = storeId)).map upd
  (updateStoreRating db1 storeId, ret)

/-- Models storage.getRatingByUserAndStore. -/
def getRatingByUserAndStore (db : DB) (userId storeId : Nat) : Option Rating :=
  db.ratings.find? (fun r => r.userId = userId ∧ r.storeId = storeId)

/-- Models storage.getRatingsByStore: ordered by createdAt descending,
i.e. reverse insertion order. -/
def getRatingsByStore (db : DB) (storeId : Nat) : List Rating :=
  (ratingsForStore db storeId).reverse

/-- Models storage.getStatistics: the three independent counts. -/
def getStatistics (db : DB) : Nat × Nat × Nat :=
  (db.users.length, db.stores.length, db.ratings.length)

/-- JSON of an optional string column. -/
def optStrJson : Option String → Json
  | some s => .str s
  | none => .null

/-- JSON of a user after the `const { password, ...userWithoutPassword }`
destructuring: every column except `password`. -/
def userJson (u : User) : Json :=
  .obj [("id", .num ⟨u.id, 1⟩), ("name", .str u.name), ("email", .str u.email),
        ("address", optStrJson u.address), ("role", .str u.role)]

/-- The JSON fields of a store row. -/
def storeFields (s : Store) : List (String × Json) :=
  [("id", .num ⟨s.id, 1⟩), ("name", .str s.name), ("email", .str s.email),
   ("address", .str s.address), ("ownerId", .num ⟨s.ownerId, 1⟩),
   ("averageRating", .str s.averageRating), ("totalRatings", .num ⟨s.totalRatings, 1⟩)]

/-- JSON of a store row. -/
def storeJson (s : Store) : Json := .obj (storeFields s)

/-- The JSON fields of a rating row. -/
def ratingFields (r : Rating) : List (String × Json) :=
  [("id", .num ⟨r.id, 1⟩), ("userId", .num ⟨r.userId, 1⟩), ("storeId", .num ⟨r.storeId, 1⟩),
   ("rating", .num r.rating), ("review", optStrJson r.review)]

/-- JSON of a rating row. -/
def ratingJson (r : Rating) : Json := .obj (ratingFields r)

/-- JSON of an error or info message body. -/
def msgJson (m : String) : Json := .obj [("message", .str m)]

/-- An HTTP response: status code and JSON body. -/
structure HttpOut where
  status : Nat
  body : Json

/-- Models the requireAuth middleware test `!req.session.userId`: fails when
the session has no userId or (JavaScript falsiness) userId 0. -/
def authOk (s : Session) : Bool :=
  match s.userId with
  | none => false
  | some n => !(n == 0)

/-- Models the requireAdmin middleware test
`!req.session.user || req.session.user.role !== "admin"`. -/
def isAdminSession (s : Session) : Bool :=
  match s.user with
  | none => false
  | some u => u.role == "admin"

/-- Models the POST /api/auth/register handler. -/
def registerHandler (hash : String → String) (db : DB) (b : RegisterBody) : HttpOut × DB :=
  match insertUserSchemaParse b with
  | .error m => (⟨400, msgJson m⟩, db)
  | .ok d =>
    match getUserByEmail db d.email with
    | some _ => (⟨400, msgJson "User already exists"⟩, db)
    | none =>
      let p := createUser hash db d
      (⟨200, .obj [("user", userJson p.2)]⟩, p.1)

/-- Models the POST /api/auth/login handler; `verify` is bcrypt.compare. -/
def loginHandler (verify : String → String → Bool) (db : DB) (sess : Session)
    (b : LoginBody) : HttpOut × Session :=
  match loginSchemaParse b with
  | .error m => (⟨400, msgJson m⟩, sess)
  | .ok c =>
    match getUserByEmail db c.email with
    | none => (⟨401, msgJson "Invalid credentials"⟩, sess)
    | some u =>
      if verify c.password u.password then
        (⟨200, .obj [("user", userJson u)]⟩, ⟨some u.id, some ⟨u.id, u.name, u.email, u.role⟩⟩)
      else
        (⟨401, msgJson "Invalid credentials"⟩, sess)

/-- Models the POST /api/auth/logout handler (session destroyed). -/
def logoutHandler (_sess : Session) : HttpOut × Session :=
  (⟨200, msgJson "Logged out successfully"⟩, ⟨none, none⟩)

/-- Models the GET /api/auth/me handler. -/
def meHandler (db : DB) (sess : Session) : HttpOut :=
  if !authOk sess then ⟨401, msgJson "Unauthorized"⟩
  else
    match getUser db (sess.userId.getD 0) with
    | none => ⟨404, msgJson "User not found"⟩
    | some u => ⟨200, .obj [("user", userJson u)]⟩

/-- Models the POST /api/auth/change-password handler. -/
def changePasswordHandler (verify : String → String → Bool) (hash : String → String)
    (db : DB) (sess : Session) (b : ChangePasswordBody) : HttpOut × DB :=
  if !authOk sess then (⟨401, msgJson "Unauthorized"⟩, db)
  else
    match changePasswordSchemaParse b with
    | .error m => (⟨400, msgJson m⟩, db)
    | .ok c =>
      match getUser db (sess.userId.getD 0) with
      | none => (⟨404, msgJson "User not found"⟩, db)
      | some u =>
        if !verify c.currentPassword u.password then
          (⟨401, msgJson "Current password is incorrect"⟩, db)
        else
          (⟨200, msgJson "Password updated successfully"⟩,
           updateUserPassword db u.id (hash c.newPassword))

/-- Query string of GET /api/stores: the handler destructures search,
sortBy and sortOrder. -/
structure StoresQuery where
  search : Option String
  sortBy : Option String
  sortOrder : Option String

/-- The store list the GET /api/stores handler works from: searchStores when
a (truthy, i.e. nonempty) search parameter is present, else getAllStores. -/
def storesForQuery (db : DB) (search : Option String) : List Store :=
  match search with
  | some q => if q = "" then getAllStores db else searchStores db q
  | none => getAllStores db

/-- JSON of a store annotated with the calling user's own rating
(`userRating: userRating?.rating || null`: a missing rating, and the falsy
number 0, render as null). -/
def storeWithUserRatingJson (db : DB) (uid : Nat) (s : Store) : Json :=
  let ur := match getRatingByUserAndStore db uid s.id with
    | some r => if r.rating.num = 0 then Json.null else Json.num r.rating
    | none => Json.null
  Json.obj (storeFields s ++ [("userRating", ur)])

/-- Models the GET /api/stores handler: non-admin sessions get each store
annotated with their own rating. -/
def getStoresHandler (db : DB) (sess : Session) (q : StoresQuery) : HttpOut :=
  if !authOk sess then ⟨401, msgJson "Unauthorized"⟩
  else
    let stores := storesForQuery db q.search
    if (match sess.user with | some u => u.role == "admin" | none => false) then
      ⟨200, .arr (stores.map storeJson)⟩
    else
      ⟨200, .arr (stores.map (storeWithUserRatingJson db (sess.userId.getD 0)))⟩

/-- Models the POST /api/stores handler (admin only). -/
def postStoresHandler (db : DB) (sess : Session) (b : StoreBody) : HttpOut × DB :=
  if !isAdminSession sess then (⟨403, msgJson "Forbidden"⟩, db)
  else
    match insertStoreSchemaParse b with
    | .error m => (⟨400, msgJson m⟩, db)
    | .ok d =>
      let p := createStore db d
      (⟨200, storeJson p.2⟩, p.1)

/-- Models the GET /api/stores/owner/:ownerId handler. -/
def storesByOwnerHandler (db : DB) (sess : Session) (ownerId : Nat) : HttpOut :=
  if !authOk sess then ⟨401, msgJson "Unauthorized"⟩
  else ⟨200, .arr ((getStoresByOwner db ownerId).map storeJson)⟩

/-- Models the POST /api/ratings handler: parse with the session's userId,
then update the existing (userId, storeId) row if there is one, else insert. -/
def postRatingsHandler (db : DB) (sess : Session) (b : RatingBody) : HttpOut × DB :=
  if !authOk sess then (⟨401, msgJson "Unauthorized"⟩, db)
  else
    let uid := sess.userId.getD 0
    match insertRatingSchemaParse uid b with
    | .error m => (⟨400, msgJson m⟩, db)
    | .ok d =>
      match getRatingByUserAndStore db uid d.storeId with
      | some _ =>
        let p := updateRating db uid d.storeId d
        (⟨200, match p.2 with | some r => ratingJson r | none => .null⟩, p.1)
      | none =>
        let p := createRating db d
        (⟨200, ratingJson p.2⟩, p.1)

/-- Models the GET /api/ratings/store/:storeId handler: each rating is
annotated with the rater's {name, email}. -/
def ratingsByStoreHandler (db : DB) (sess : Session) (storeId : Nat) : HttpOut :=
  if !authOk sess then ⟨401, msgJson "Unauthorized"⟩
  else
    ⟨200, .arr ((getRatingsByStore db storeId).map (fun r =>
      Json.obj (ratingFields r ++ [("user",
        match getUser db r.userId with
        | some u => Json.obj [("name", .str u.name), ("email", .str u.email)]
        | none => Json.null)])))⟩

/-- Models the GET /api/users handler (admin only): passwords stripped. -/
def getUsersHandler (db : DB) (sess : Session) : HttpOut :=
  if !isAdminSession sess then ⟨403, msgJson "Forbidden"⟩
  else ⟨200, .arr ((getAllUsers db).map userJson)⟩

/-- Models the POST /api/users handler (admin only). -/
def postUsersHandler (hash : String → String) (db : DB) (sess : Session)
    (b : RegisterBody) : HttpOut × DB :=
  if !isAdminSession sess then (⟨403, msgJson "Forbidden"⟩, db)
  else
    match insertUserSchemaParse b with
    | .error m => (⟨400, msgJson m⟩, db)
    | .ok d =>
      match getUserByEmail db d.email with
      | some _ => (⟨400, msgJson "User already exists"⟩, db)
      | none =>
        let p := createUser hash db d
        (⟨200, userJson p.2⟩, p.1)

/-- Models the GET /api/statistics handler (admin only). -/
def statisticsHandler (db : DB) (sess : Session) : HttpOut :=
  if !isAdminSession sess then ⟨403, msgJson "Forbidden"⟩
  else
    let st := getStatistics db
    ⟨200, .obj [("totalUsers", .num ⟨st.1, 1⟩), ("totalStores", .num ⟨st.2.1, 1⟩),
                ("totalRatings", .num ⟨st.2.2, 1⟩)]⟩

/-- The (userId, storeId) key of a rating row, the column pair of the
`userStoreUnique` constraint. -/
def ratingKey (r : Rating) : Nat × Nat := (r.userId, r.storeId)

/-- The database-level invariant of the `userStoreUnique` unique constraint:
no two rating rows share a (userId, storeId) pair. -/
def uniqueUserStore (db : DB) : Prop := (db.ratings.map ratingKey).Nodup

/-- Number of rating rows with the given (userId, storeId) pair. -/
def countUserStore (db : DB) (u s : Nat) : Nat := (db.ratings.map ratingKey).count (u, s)

/-- Number of distinct users having a rating row for the store. -/
def distinctRaters (db : DB) (s : Nat) : Nat :=
  ((ratingsForStore db s).map (fun r => r.userId)).dedup.length

theorem updateStoreRating_users (db : DB) (sid : Nat) :
    (updateStoreRating db sid).users = db.users := rfl

theorem updateStoreRating_ratings (db : DB) (sid : Nat) :
    (updateStoreRating db sid).ratings = db.ratings := rfl

theorem updateStoreRating_stores (db : DB) (sid : Nat) :
    (updateStoreRating db sid).stores = db.stores.map (fun s =>
      if s.id = sid then
        { s with averageRating := avgString db sid,
                 totalRatings := (ratingsForStore db sid).length }
      else s) := rfl

theorem ratingsForStore_update (db : DB) (sid sid' : Nat) :
    ratingsForStore (updateStoreRating db sid) sid' = ratingsForStore db sid' := rfl

theorem avgString_update (db : DB) (sid sid' : Nat) :
    avgString (updateStoreRating db sid) sid' = avgString db sid' := rfl

theorem dbExt (a b : DB) (hu : a.users = b.users) (hs : a.stores = b.stores)
    (hr : a.ratings = b.ratings) : a = b := by
  cases a; cases b; simp_all

/-- C8: the aggregate recompute is idempotent — running updateStoreRating
twice in a row with no intervening rating write yields the same database
state, in particular the same averageRating and totalRatings, as after the
first run. -/
theorem updateStoreRating_idem (db : DB) (sid : Nat) :
    updateStoreRating (updateStoreRating db sid) sid = updateStoreRating db sid := by
  apply dbExt
  · rw [updateStoreRating_users, updateStoreRating_users]
  · rw [updateStoreRating_stores (updateStoreRating db sid), updateStoreRating_stores db,
        avgString_update, ratingsForStore_update, List.map_map]
    apply List.map_congr_left
    intro s _
    by_cases h : s.id = sid
    · simp [Function.comp, h]
    · simp [Function.comp, h]
  · rw [updateStoreRating_ratings, updateStoreRating_ratings]

/-- C6: login with an email matching an existing user but a password that
does not verify against the stored hash returns 401 and leaves the session
exactly as it was. -/
theorem login_wrong_password_401 (verify : String → String → Bool) (db : DB) (sess : Session)
    (b : LoginBody) (u : User)
    (hem : emailOk b.email = true) (hpl : 1 ≤ b.password.length)
    (hfind : getUserByEmail db b.email = some u)
    (hver : verify b.password u.password = false) :
    loginHandler verify db sess b = (⟨401, msgJson "Invalid credentials"⟩, sess) := by
  have h1 : ¬ (b.password.length < 1) := by omega
  simp [loginHandler, loginSchemaParse, hem, h1, hfind, hver]

def wrongPasswordUser : User := ⟨1, "Some Registered Person", "a@b.com", "storedhash", none, "user"⟩

def wrongPasswordDB : DB := ⟨[wrongPasswordUser], [], []⟩

theorem login_wrong_password_401_witness :
    loginHandler (fun _ _ => false) wrongPasswordDB ⟨none, none⟩ ⟨"a@b.com", "guess"⟩
      = (⟨401, msgJson "Invalid credentials"⟩, ⟨none, none⟩) :=
  login_wrong_password_401 (fun _ _ => false) wrongPasswordDB ⟨none, none⟩ ⟨"a@b.com", "guess"⟩
    wrongPasswordUser (by decide) (by decide) (by decide) rfl

/-- C7: every admin-only endpoint (POST /api/stores, GET /api/users,
POST /api/users, GET /api/statistics) answers 403 to a session whose
snapshot role is not "admin", and leaves the database unchanged. -/
theorem admin_endpoints_403 (hash : String → String) (db : DB) (sess : Session)
    (sb : StoreBody) (ub : RegisterBody)
    (h : ∀ su, sess.user = some su → su.role ≠ "admin") :
    postStoresHandler db sess sb = (⟨403, msgJson "Forbidden"⟩, db) ∧
    getUsersHandler db sess = ⟨403, msgJson "Forbidden"⟩ ∧
    postUsersHandler hash db sess ub = (⟨403, msgJson "Forbidden"⟩, db) ∧
    statisticsHandler db sess = ⟨403, msgJson "Forbidden"⟩ := by
  have hA : isAdminSession sess = false := by
    unfold isAdminSession
    cases hu : sess.user with
    | none => rfl
    | some su => simp [h su hu]
  simp [postStoresHandler, getUsersHandler, postUsersHandler, statisticsHandler, hA]

def plainUserSession : Session := ⟨some 7, some ⟨7, "Plain User", "p@q.com", "user"⟩⟩

def demoStoreBody : StoreBody := ⟨"Shop", "shop@example.com", "1 Main St", 7⟩

def demoRegisterBody : RegisterBody :=
  ⟨"Bbbbbbbbbbbbbbbbbbbb", "new.user@example.com", "Password!1", none, none⟩

theorem admin_endpoints_403_witness :
    postStoresHandler ⟨[], [], []⟩ plainUserSession demoStoreBody
      = (⟨403, msgJson "Forbidden"⟩, ⟨[], [], []⟩) ∧
    getUsersHandler ⟨[], [], []⟩ plainUserSession = ⟨403, msgJson "Forbidden"⟩ ∧
    postUsersHandler (fun s => s) ⟨[], [], []⟩ plainUserSession demoRegisterBody
      = (⟨403, msgJson "Forbidden"⟩, ⟨[], [], []⟩) ∧
    statisticsHandler ⟨[], [], []⟩ plainUserSession = ⟨403, msgJson "Forbidden"⟩ :=
  admin_endpoints_403 (fun s => s) ⟨[], [], []⟩ plainUserSession demoStoreBody demoRegisterBody
    (by intro su hsu; cases hsu; decide)

def hashDemo (s : String) : String := "$2a$10$" ++ s

def adminRegisterBody : RegisterBody :=
  ⟨"Aaaaaaaaaaaaaaaaaaaa", "attacker@example.com", "Password!1", none, some "admin"⟩

/-- C3 (refuting evaluation): a self-service registration whose body carries
role "admin" passes `insertUserSchema` validation and is created with role
"admin" — the code does not force role "user" on registration. -/
theorem register_honours_requested_role :
    (registerHandler hashDemo ⟨[], [], []⟩ adminRegisterBody).1.status = 200 ∧
    ((registerHandler hashDemo ⟨[], [], []⟩ adminRegisterBody).2.users.map (fun u => u.role))
      = ["admin"] := by decide

def oneStoreDB : DB := ⟨[], [⟨1, "S", "store@example.com", "addr", 1, "0.00", 0⟩], []⟩

def userSession : Session := ⟨some 1, some ⟨1, "A", "a@example.com", "user"⟩⟩

def halfRatingBody : RatingBody := ⟨none, 1, ⟨3, 2⟩, none⟩

/-- C4 counterexample: rating 3/2 = 1.5 is not an integer, yet
POST /api/ratings accepts the payload with status 200 and creates a row —
refuting "accepts if and only if it is an integer between 1 and 5". -/
theorem rating_non_integer_accepted :
    (postRatingsHandler oneStoreDB userSession halfRatingBody).1.status = 200 ∧
    (postRatingsHandler oneStoreDB userSession halfRatingBody).2.ratings.length = 1 ∧
    halfRatingBody.rating.den ≠ 1 := by decide

/-- C4 (amended): POST /api/ratings accepts a rating value if and only if it
is a number between 1 and 5 inclusive — the bounds are checked but
integrality is not; any payload whose rating is outside [1, 5] is rejected
with status 400 and no Rating row is created or updated. -/
theorem rating_validation_bounds (db : DB) (sess : Session) (b : RatingBody) (u : Nat)
    (hu : sess.userId = some u) (h0 : u ≠ 0)
    (hrev : (b.review.getD "").length ≤ 1000) :
    ((insertRatingSchemaParse u b).isOk = true ↔
      (JNum.le ⟨1, 1⟩ b.rating = true ∧ JNum.le b.rating ⟨5, 1⟩ = true)) ∧
    (¬ (JNum.le ⟨1, 1⟩ b.rating = true ∧ JNum.le b.rating ⟨5, 1⟩ = true) →
      (postRatingsHandler db sess b).1.status = 400 ∧ (postRatingsHandler db sess b).2 = db) := by
  have hrev' : ¬ (1000 < (b.review.getD "").length) := by omega
  have hauth : authOk sess = true := by
    simp [authOk, hu]
    exact h0
  constructor
  · unfold insertRatingSchemaParse
    by_cases h1 : JNum.le ⟨1, 1⟩ b.rating
    · by_cases h5 : JNum.le b.rating ⟨5, 1⟩
      · simp [h1, h5, hrev', Except.isOk, Except.toBool]
      · simp [h1, h5, Except.isOk, Except.toBool]
    · simp [h1, Except.isOk, Except.toBool]
  · intro hne
    have hgetD : sess.userId.getD 0 = u := by rw [hu]; rfl
    have hperr : ∃ m, insertRatingSchemaParse u b = .error m := by
      by_cases h1 : JNum.le ⟨1, 1⟩ b.rating
      · by_cases h5 : JNum.le b.rating ⟨5, 1⟩
        · exact absurd ⟨h1, h5⟩ hne
        · exact ⟨"Rating must not exceed 5", by simp [insertRatingSchemaParse, h1, h5]⟩
      · exact ⟨"Rating must be at least 1", by simp [insertRatingSchemaParse, h1]⟩
    obtain ⟨m, hm⟩ := hperr
    simp [postRatingsHandler, hauth, hgetD, hm]

def outOfRangeBody : RatingBody := ⟨none, 1, ⟨6, 1⟩, none⟩

theorem rating_validation_bounds_witness :
    ((insertRatingSchemaParse 1 outOfRangeBody).isOk = true ↔
      (JNum.le ⟨1, 1⟩ outOfRangeBody.rating = true ∧
       JNum.le outOfRangeBody.rating ⟨5, 1⟩ = true)) ∧
    (¬ (JNum.le ⟨1, 1⟩ outOfRangeBody.rating = true ∧
        JNum.le outOfRangeBody.rating ⟨5, 1⟩ = true) →
      (postRatingsHandler oneStoreDB userSession outOfRangeBody).1.status = 400 ∧
      (postRatingsHandler oneStoreDB userSession outOfRangeBody).2 = oneStoreDB) :=
  rating_validation_bounds oneStoreDB userSession outOfRangeBody 1 rfl (by decide) (by decide)

theorem avgString_empty (db : DB) (sid : Nat) (h : ratingsForStore db sid = []) :
    avgString db sid = "0.00" := by
  unfold avgString storeAvg
  simp [h]

theorem updateStoreRating_mem (db : DB) (sid : Nat) (s : Store)
    (hmem : s ∈ (updateStoreRating db sid).stores) (hid : s.id = sid) :
    s.totalRatings = (ratingsForStore db sid).length ∧ s.averageRating = avgString db sid := by
  rw [updateStoreRating_stores] at hmem
  obtain ⟨s0, hs0, rfl⟩ := List.mem_map.1 hmem
  by_cases h : s0.id = sid
  · rw [if_pos h]
    exact ⟨rfl, rfl⟩
  · rw [if_neg h] at hid
    exact absurd hid h

theorem insertRatingSchemaParse_ok {uid : Nat} {b : RatingBody} {d : InsertRating}
    (h : insertRatingSchemaParse uid b = .ok d) :
    d = ⟨uid, b.storeId, b.rating, b.review⟩ := by
  unfold insertRatingSchemaParse at h
  by_cases h1 : JNum.le ⟨1, 1⟩ b.rating
  · by_cases h5 : JNum.le b.rating ⟨5, 1⟩
    · by_cases hr : 1000 < (b.review.getD "").length
      · simp [h1, h5, hr] at h
      · simp [h1, h5, hr] at h
        exact h.symm
    · simp [h1, h5] at h
  · simp [h1] at h

theorem postRatings_db2 (db : DB) (sess : Session) (b : RatingBody)
    (hs : (postRatingsHandler db sess b).1.status = 200) :
    ∃ dbmid : DB, (postRatingsHandler db sess b).2 = updateStoreRating dbmid b.storeId := by
  unfold postRatingsHandler at hs ⊢
  by_cases ha : authOk sess = true
  · simp only [ha, Bool.not_true, Bool.false_eq_true, if_false] at hs ⊢
    cases hp : insertRatingSchemaParse (sess.userId.getD 0) b with
    | error m => simp [hp] at hs
    | ok d =>
      have hd := insertRatingSchemaParse_ok hp
      subst hd
      simp only [hp] at hs ⊢
      cases hf : getRatingByUserAndStore db (sess.userId.getD 0) b.storeId with
      | some r0 => simp only [hf]; exact ⟨_, rfl⟩
      | none => simp only [hf]; exact ⟨_, rfl⟩
  · simp only [Bool.not_eq_true] at ha
    simp [ha] at hs

/-- C1: after every successful POST /api/ratings (create or update), the
rated store's row carries totalRatings equal to the count of its rating rows
and averageRating equal to their mean rendered with exactly two decimal
places; and the recompute on a store with no ratings writes "0.00" and 0. -/
theorem postRatings_aggregate (db : DB) (sess : Session) (b : RatingBody)
    (hs : (postRatingsHandler db sess b).1.status = 200) :
    (∀ s ∈ (postRatingsHandler db sess b).2.stores, s.id = b.storeId →
        s.totalRatings = (ratingsForStore (postRatingsHandler db sess b).2 b.storeId).length ∧
        s.averageRating = avgString (postRatingsHandler db sess b).2 b.storeId) ∧
    (∀ (d : DB) (sid : Nat), ratingsForStore d sid = [] →
        ∀ s ∈ (updateStoreRating d sid).stores, s.id = sid →
          s.averageRating = "0.00" ∧ s.totalRatings = 0) := by
  constructor
  · obtain ⟨dbmid, hdb⟩ := postRatings_db2 db sess b hs
    intro s hmem hid
    rw [hdb] at hmem ⊢
    rw [ratingsForStore_update, avgString_update]
    exact updateStoreRating_mem dbmid b.storeId s hmem hid
  · intro d sid hempty s hmem hid
    have h2 := updateStoreRating_mem d sid s hmem hid
    refine ⟨h2.2.trans (avgString_empty d sid hempty), ?_⟩
    rw [h2.1, hempty]
    rfl

def fiveRatingBody : RatingBody := ⟨none, 1, ⟨5, 1⟩, none⟩

theorem postRatings_aggregate_witness :
    ((⟨1, "S", "store@example.com", "addr", 1, "5.00", 1⟩ : Store).totalRatings
        = (ratingsForStore (postRatingsHandler oneStoreDB userSession fiveRatingBody).2 1).length ∧
      (⟨1, "S", "store@example.com", "addr", 1, "5.00", 1⟩ : Store).averageRating
        = avgString (postRatingsHandler oneStoreDB userSession fiveRatingBody).2 1) ∧
    ((⟨1, "S", "store@example.com", "addr", 1, "0.00", 0⟩ : Store).averageRating = "0.00" ∧
      (⟨1, "S", "store@example.com", "addr", 1, "0.00", 0⟩ : Store).totalRatings = 0) :=
  ⟨(postRatings_aggregate oneStoreDB userSession fiveRatingBody (by decide)).1
      ⟨1, "S", "store@example.com", "addr", 1, "5.00", 1⟩ (by decide) (by decide),
   (postRatings_aggregate oneStoreDB userSession fiveRatingBody (by decide)).2
      oneStoreDB 1 (by decide) ⟨1, "S", "store@example.com", "addr", 1, "0.00", 0⟩
      (by decide) (by decide)⟩

theorem createRating_ratings (db : DB) (d : InsertRating) :
    (createRating db d).1.ratings
      = db.ratings ++ [⟨db.ratings.length + 1, d.userId, d.storeId, d.rating, d.review⟩] := rfl

theorem updateRating_ratings (db : DB) (u s : Nat) (d : InsertRating) :
    (updateRating db u s d).1.ratings = db.ratings.map (fun r =>
      if r.userId = u ∧ r.storeId = s then
        { r with userId := d.userId, storeId := d.storeId, rating := d.rating, review := d.review }
      else r) := rfl

/-- C5: POST /api/ratings binds the submitter's identity from the session,
not the request body: two bodies differing only in a userId field produce
identical responses and identical database states, and every rating row of
the resulting database is either a pre-existing row or carries the
session's userId. -/
theorem postRatings_session_identity (db : DB) (sess : Session) (b : RatingBody)
    (u1 u2 : Option JNum) :
    postRatingsHandler db sess { b with userId := u1 }
      = postRatingsHandler db sess { b with userId := u2 } ∧
    (∀ r ∈ (postRatingsHandler db sess b).2.ratings,
        r ∈ db.ratings ∨ r.userId = sess.userId.getD 0) := by
  constructor
  · rfl
  · intro r hr
    unfold postRatingsHandler at hr
    by_cases ha : authOk sess = true
    · simp only [ha, Bool.not_true, Bool.false_eq_true, if_false] at hr
      cases hp : insertRatingSchemaParse (sess.userId.getD 0) b with
      | error m =>
        simp only [hp] at hr
        exact Or.inl hr
      | ok d =>
        have hd := insertRatingSchemaParse_ok hp
        subst hd
        simp only [hp] at hr
        cases hf : getRatingByUserAndStore db (sess.userId.getD 0) b.storeId with
        | some r0 =>
          simp only [hf] at hr
          rw [updateRating_ratings] at hr
          obtain ⟨x, hx, rfl⟩ := List.mem_map.1 hr
          by_cases hc : x.userId = sess.userId.getD 0 ∧ x.storeId = b.storeId
          · right
            rw [if_pos hc]
          · left
            rwa [if_neg hc]
        | none =>
          simp only [hf] at hr
          rw [createRating_ratings] at hr
          rcases List.mem_append.1 hr with h | h
          · exact Or.inl h
          · right
            rw [List.mem_singleton] at h
            subst h
            rfl
    · simp only [Bool.not_eq_true] at ha
      simp only [ha, Bool.not_false, if_true] at hr
      exact Or.inl hr

theorem postRatings_session_identity_witness :
    postRatingsHandler oneStoreDB userSession { fiveRatingBody with userId := some ⟨9, 1⟩ }
      = postRatingsHandler oneStoreDB userSession { fiveRatingBody with userId := none } ∧
    ((⟨1, 1, 1, ⟨5, 1⟩, none⟩ : Rating) ∈ oneStoreDB.ratings ∨
      (⟨1, 1, 1, ⟨5, 1⟩, none⟩ : Rating).userId = userSession.userId.getD 0) :=
  ⟨(postRatings_session_identity oneStoreDB userSession fiveRatingBody (some ⟨9, 1⟩) none).1,
   (postRatings_session_identity oneStoreDB userSession fiveRatingBody (some ⟨9, 1⟩) none).2
      ⟨1, 1, 1, ⟨5, 1⟩, none⟩ (by decide)⟩

instance : IsTotal Store (fun a b => a.name ≤ b.name) :=
  ⟨fun a b => le_total a.name b.name⟩

instance : IsTrans Store (fun a b => a.name ≤ b.name) :=
  ⟨fun _ _ _ h1 h2 => le_trans h1 h2⟩

theorem getAllStores_sorted (db : DB) :
    (getAllStores db).Pairwise (fun a b => a.name ≤ b.name) :=
  List.sorted_insertionSort _ _

theorem searchStores_sorted (db : DB) (q : String) :
    (searchStores db q).Pairwise (fun a b => a.name ≤ b.name) :=
  List.sorted_insertionSort _ _

/-- C10: GET /api/stores ignores its sortBy and sortOrder query parameters —
two requests from the same session and store state differing only in those
parameters get identical responses — and the store list served (from
getAllStores or searchStores) is ordered by name ascending. -/
theorem getStores_ignores_sort (db : DB) (sess : Session) (search : Option String)
    (sb1 so1 sb2 so2 : Option String) :
    getStoresHandler db sess ⟨search, sb1, so1⟩ = getStoresHandler db sess ⟨search, sb2, so2⟩ ∧
    (storesForQuery db search).Pairwise (fun a b => a.name ≤ b.name) := by
  constructor
  · rfl
  · unfold storesForQuery
    cases search with
    | none => exact getAllStores_sorted db
    | some q =>
      show (if q = "" then getAllStores db else searchStores db q).Pairwise
        (fun a b => a.name ≤ b.name)
      by_cases h : q = ""
      · rw [if_pos h]
        exact getAllStores_sorted db
      · rw [if_neg h]
        exact searchStores_sorted db q

theorem msgJson_no_password (m : String) :
    Json.hasKey "password" (msgJson m) = false := rfl

theorem userJson_no_password (u : User) :
    Json.hasKey "password" (userJson u) = false := by
  obtain ⟨i, n, e, p, a, ro⟩ := u
  cases a <;> rfl

theorem userWrap_no_password (u : User) :
    Json.hasKey "password" (Json.obj [("user", userJson u)]) = false := by
  obtain ⟨i, n, e, p, a, ro⟩ := u
  cases a <;> rfl

theorem storeJson_no_password (s : Store) :
    Json.hasKey "password" (storeJson s) = false := rfl

theorem ratingJson_no_password (r : Rating) :
    Json.hasKey "password" (ratingJson r) = false := by
  obtain ⟨i, uu, ss, ra, rev⟩ := r
  cases rev <;> rfl

theorem hasKeyList_map_false {α : Type} (k : String) (f : α → Json) (l : List α)
    (h : ∀ x ∈ l, Json.hasKey k (f x) = false) :
    Json.hasKeyList k (l.map f) = false := by
  induction l with
  | nil => rfl
  | cons x xs ih =>
    simp only [List.map_cons, Json.hasKeyList, Bool.or_eq_false_iff]
    exact ⟨h x (List.mem_cons_self x xs), ih (fun y hy => h y (List.mem_cons_of_mem x hy))⟩

theorem arr_no_password (k : String) (xs : List Json) (h : Json.hasKeyList k xs = false) :
    Json.hasKey k (Json.arr xs) = false := by
  simp [Json.hasKey, h]

theorem storeWithUserRating_no_password (db : DB) (uid : Nat) (s : Store) :
    Json.hasKey "password" (storeWithUserRatingJson db uid s) = false := by
  unfold storeWithUserRatingJson
  cases hg : getRatingByUserAndStore db uid s.id with
  | none => rfl
  | some r =>
    simp only [hg]
    split <;> rfl

theorem ratingWithUser_no_password (db : DB) (r : Rating) :
    Json.hasKey "password" (Json.obj (ratingFields r ++ [("user",
      match getUser db r.userId with
      | some u => Json.obj [("name", .str u.name), ("email", .str u.email)]
      | none => Json.null)])) = false := by
  obtain ⟨i, uu, ss, ra, rev⟩ := r
  cases hg : getUser db uu with
  | none =>
    simp only [hg]
    cases rev <;> rfl
  | some u =>
    simp only [hg]
    cases rev <;> rfl

/-- C9: no response from any endpoint ever contains a password field — on
every success and error path of every handler, the response body has no
"password" key anywhere inside it. -/
theorem no_password_in_responses (hash : String → String) (verify : String → String → Bool)
    (db : DB) (sess : Session) (rb rb2 : RegisterBody) (lb : LoginBody)
    (cb : ChangePasswordBody) (q : StoresQuery) (sb : StoreBody) (ratb : RatingBody)
    (oid sid : Nat) :
    Json.hasKey "password" (registerHandler hash db rb).1.body = false ∧
    Json.hasKey "password" (loginHandler verify db sess lb).1.body = false ∧
    Json.hasKey "password" (logoutHandler sess).1.body = false ∧
    Json.hasKey "password" (meHandler db sess).body = false ∧
    Json.hasKey "password" (changePasswordHandler verify hash db sess cb).1.body = false ∧
    Json.hasKey "password" (getStoresHandler db sess q).body = false ∧
    Json.hasKey "password" (postStoresHandler db sess sb).1.body = false ∧
    Json.hasKey "password" (storesByOwnerHandler db sess oid).body = false ∧
    Json.hasKey "password" (postRatingsHandler db sess ratb).1.body = false ∧
    Json.hasKey "password" (ratingsByStoreHandler db sess sid).body = false ∧
    Json.hasKey "password" (getUsersHandler db sess).body = false ∧
    Json.hasKey "password" (postUsersHandler hash db sess rb2).1.body = false ∧
    Json.hasKey "password" (statisticsHandler db sess).body = false := by
  refine ⟨?_, ?_, ?_, ?_, ?_, ?_, ?_, ?_, ?_, ?_, ?_, ?_, ?_⟩
  · unfold registerHandler
    split
    · exact msgJson_no_password _
    · split
      · exact msgJson_no_password _
      · exact userWrap_no_password _
  · unfold loginHandler
    split
    · exact msgJson_no_password _
    · split
      · exact msgJson_no_password _
      · split
        · exact userWrap_no_password _
        · exact msgJson_no_password _
  · exact msgJson_no_password _
  · unfold meHandler
    split
    · exact msgJson_no_password _
    · split
      · exact msgJson_no_password _
      · exact userWrap_no_password _
  · unfold changePasswordHandler
    split
    · exact msgJson_no_password _
    · split
      · exact msgJson_no_password _
      · split
        · exact msgJson_no_password _
        · split
          · exact msgJson_no_password _
          · exact msgJson_no_password _
  · unfold getStoresHandler
    split
    · exact msgJson_no_password _
    · split
      · exact arr_no_password _ _
          (hasKeyList_map_false _ _ _ (fun x _ => storeJson_no_password x))
      · exact arr_no_password _ _
          (hasKeyList_map_false _ _ _ (fun x _ => storeWithUserRating_no_password db _ x))
  · unfold postStoresHandler
    split
    · exact msgJson_no_password _
    · split
      · exact msgJson_no_password _
      · exact storeJson_no_password _
  · unfold storesByOwnerHandler
    split
    · exact msgJson_no_password _
    · exact arr_no_password _ _
        (hasKeyList_map_false _ _ _ (fun x _ => storeJson_no_password x))
  · unfold postRatingsHandler
    split
    · exact msgJson_no_password _
    · cases hp : insertRatingSchemaParse (sess.userId.getD 0) ratb with
      | error m =>
        simp only [hp]
        exact msgJson_no_password _
      | ok d =>
        simp only [hp]
        cases hf : getRatingByUserAndStore db (sess.userId.getD 0) d.storeId with
        | some r0 =>
          simp only [hf]
          cases hr2 : (updateRating db (sess.userId.getD 0) d.storeId d).2 with
          | some r =>
            simp only [hr2]
            exact ratingJson_no_password _
          | none =>
            simp only [hr2]
            rfl
        | none =>
          simp only [hf]
          exact ratingJson_no_password _
  · unfold ratingsByStoreHandler
    split
    · exact msgJson_no_password _
    · exact arr_no_password _ _
        (hasKeyList_map_false _ _ _ (fun x _ => ratingWithUser_no_password db x))
  · unfold getUsersHandler
    split
    · exact msgJson_no_password _
    · exact arr_no_password _ _
        (hasKeyList_map_false _ _ _ (fun x _ => userJson_no_password x))
  · unfold postUsersHandler
    split
    · exact msgJson_no_password _
    · split
      · exact msgJson_no_password _
      · split
        · exact msgJson_no_password _
        · exact userJson_no_password _
  · unfold statisticsHandler
    split
    · exact msgJson_no_password _
    · rfl

theorem map_ratingKey_update (l : List Rating) (u s : Nat) (d : InsertRating)
    (hu : d.userId = u) (hs : d.storeId = s) :
    (l.map (fun r => if r.userId = u ∧ r.storeId = s then
        { r with userId := d.userId, storeId := d.storeId, rating := d.rating, review := d.review }
      else r)).map ratingKey = l.map ratingKey := by
  rw [List.map_map]
  apply List.map_congr_left
  intro r _
  by_cases h : r.userId = u ∧ r.storeId = s
  · simp [Function.comp, h, ratingKey, hu, hs, h.1, h.2]
  · simp [Function.comp, h]

theorem getRating_none_iff (db : DB) (u s : Nat) :
    getRatingByUserAndStore db u s = none ↔ (u, s) ∉ db.ratings.map ratingKey := by
  unfold getRatingByUserAndStore
  rw [List.find?_eq_none]
  constructor
  · intro h hmem
    obtain ⟨r, hr, hk⟩ := List.mem_map.1 hmem
    simp only [ratingKey, Prod.mk.injEq] at hk
    exact h r hr (by simp [hk.1, hk.2])
  · intro h r hr hc
    simp only [decide_eq_true_eq] at hc
    exact h (List.mem_map.2 ⟨r, hr, by simp [ratingKey, hc.1, hc.2]⟩)

theorem getRating_some_mem (db : DB) (u s : Nat) (r : Rating)
    (h : getRatingByUserAndStore db u s = some r) : (u, s) ∈ db.ratings.map ratingKey := by
  have h1 := List.find?_some h
  have h2 := List.mem_of_find?_eq_some h
  simp only [decide_eq_true_eq] at h1
  exact List.mem_map.2 ⟨r, h2, by simp [ratingKey, h1.1, h1.2]⟩

theorem count_le_one_of_nodup {α : Type} [BEq α] [LawfulBEq α] (l : List α) (h : l.Nodup)
    (a : α) : l.count a ≤ 1 := by
  induction l with
  | nil => simp
  | cons x xs ih =>
    rcases List.nodup_cons.1 h with ⟨hx, hxs⟩
    rw [List.count_cons]
    by_cases hxa : (x == a) = true
    · have hxa2 : x = a := eq_of_beq hxa
      subst hxa2
      have h0 : xs.count x = 0 := List.count_eq_zero.2 hx
      simp [h0, hxa]
    · simp only [Bool.not_eq_true] at hxa
      simp [hxa, ih hxs]

theorem count_pos_of_mem {α : Type} [BEq α] [LawfulBEq α] (l : List α) (a : α) (h : a ∈ l) :
    1 ≤ l.count a := by
  induction l with
  | nil => cases h
  | cons x xs ih =>
    rw [List.count_cons]
    rcases List.mem_cons.1 h with rfl | hmem
    · simp
    · have h2 := ih hmem
      omega

theorem postRatings_step (db : DB) (sess : Session) (b : RatingBody) (u : Nat)
    (hu : sess.userId = some u) (h0 : u ≠ 0)
    (hv : (insertRatingSchemaParse u b).isOk = true)
    (huniq : uniqueUserStore db) :
    uniqueUserStore (postRatingsHandler db sess b).2 ∧
    countUserStore (postRatingsHandler db sess b).2 u b.storeId = 1 ∧
    (∀ st ∈ (postRatingsHandler db sess b).2.stores, st.id = b.storeId →
        st.totalRatings = (ratingsForStore (postRatingsHandler db sess b).2 b.storeId).length) := by
  have hauth : authOk sess = true := by
    simp [authOk, hu]
    exact h0
  have hgetD : sess.userId.getD 0 = u := by rw [hu]; rfl
  unfold postRatingsHandler
  simp only [hauth, Bool.not_true, Bool.false_eq_true, if_false, hgetD]
  cases hp : insertRatingSchemaParse u b with
  | error m => rw [hp] at hv; simp [Except.isOk, Except.toBool] at hv
  | ok d =>
    have hd := insertRatingSchemaParse_ok hp
    subst hd
    simp only [hp]
    cases hf : getRatingByUserAndStore db u b.storeId with
    | some r0 =>
      simp only [hf]
      have hkeys : ((updateRating db u b.storeId ⟨u, b.storeId, b.rating, b.review⟩).1.ratings).map
          ratingKey = db.ratings.map ratingKey := by
        rw [updateRating_ratings]
        exact map_ratingKey_update db.ratings u b.storeId _ rfl rfl
      have huniq2 : uniqueUserStore (updateRating db u b.storeId
          ⟨u, b.storeId, b.rating, b.review⟩).1 := by
        unfold uniqueUserStore
        rw [hkeys]
        exact huniq
      refine ⟨huniq2, ?_, ?_⟩
      · unfold countUserStore
        rw [hkeys]
        have hmem := getRating_some_mem db u b.storeId r0 hf
        have hle : (db.ratings.map ratingKey).count (u, b.storeId) ≤ 1 :=
          count_le_one_of_nodup _ huniq _
        have hge : 1 ≤ (db.ratings.map ratingKey).count (u, b.storeId) :=
          count_pos_of_mem _ _ hmem
        omega
      · intro st hst hid
        exact (updateStoreRating_mem _ b.storeId st hst hid).1
    | none =>
      simp only [hf]
      have hnot : (u, b.storeId) ∉ db.ratings.map ratingKey :=
        (getRating_none_iff db u b.storeId).1 hf
      have hkeys : ((createRating db ⟨u, b.storeId, b.rating, b.review⟩).1.ratings).map
          ratingKey = db.ratings.map ratingKey ++ [(u, b.storeId)] := by
        rw [createRating_ratings, List.map_append]
        rfl
      have huniq2 : uniqueUserStore (createRating db ⟨u, b.storeId, b.rating, b.review⟩).1 := by
        have hnd : (db.ratings.map ratingKey).Nodup := huniq
        unfold uniqueUserStore
        rw [hkeys]
        simp [List.nodup_append, hnd, hnot]
      refine ⟨huniq2, ?_, ?_⟩
      · unfold countUserStore
        rw [hkeys]
        simp [List.count_append, List.count_eq_zero.2 hnot]
      · intro st hst hid
        exact (updateStoreRating_mem _ b.storeId st hst hid).1

theorem ratingsForStore_length_eq_distinct (db : DB) (s : Nat) (h : uniqueUserStore db) :
    (ratingsForStore db s).length = distinctRaters db s := by
  unfold distinctRaters
  have hsub : ((ratingsForStore db s).map ratingKey).Nodup :=
    h.sublist ((List.filter_sublist db.ratings).map ratingKey)
  have hall : ∀ p ∈ (ratingsForStore db s).map ratingKey, p.2 = s := by
    intro p hp
    obtain ⟨r, hr, rfl⟩ := List.mem_map.1 hp
    have h2 := (List.mem_filter.1 hr).2
    simpa [ratingKey] using h2
  have hids : ((ratingsForStore db s).map (fun r => r.userId)).Nodup := by
    have heq : (ratingsForStore db s).map (fun r => r.userId)
        = ((ratingsForStore db s).map ratingKey).map Prod.fst := by
      rw [List.map_map]; rfl
    rw [heq]
    refine List.Nodup.map_on ?_ hsub
    intro x hx y hy hxy
    exact Prod.ext hxy ((hall x hx).trans (hall y hy).symm)
  rw [List.dedup_eq_self.2 hids, List.length_map]

/-- Fold of a sequence of POST /api/ratings submissions from one session. -/
def submitAll (sess : Session) (bodies : List RatingBody) (db : DB) : DB :=
  bodies.foldl (fun d b => (postRatingsHandler d sess b).2) db

/-- C2: any nonempty sequence of valid rating submissions by user u for
store s leaves exactly one Rating row keyed (u, s) — the first submission
inserts, later ones update in place — the (userId, storeId) uniqueness
invariant is preserved, and the store's totalRatings does not exceed the
number of distinct users with a rating row for it. -/
theorem repeated_submission_one_row (db : DB) (sess : Session) (u s : Nat)
    (bodies : List RatingBody)
    (hu : sess.userId = some u) (h0 : u ≠ 0)
    (hb : ∀ b ∈ bodies, b.storeId = s ∧ (insertRatingSchemaParse u b).isOk = true)
    (hne : bodies ≠ [])
    (huniq : uniqueUserStore db) :
    uniqueUserStore (submitAll sess bodies db) ∧
    countUserStore (submitAll sess bodies db) u s = 1 ∧
    (∀ st ∈ (submitAll sess bodies db).stores, st.id = s →
        st.totalRatings ≤ distinctRaters (submitAll sess bodies db) s) := by
  induction bodies generalizing db with
  | nil => exact absurd rfl hne
  | cons b bs ih =>
    have hbb := hb b (List.mem_cons_self b bs)
    have hstep := postRatings_step db sess b u hu h0 hbb.2 huniq
    rw [hbb.1] at hstep
    cases bs with
    | nil =>
      simp only [submitAll, List.foldl_cons, List.foldl_nil]
      refine ⟨hstep.1, hstep.2.1, ?_⟩
      intro st hst hid
      exact le_of_eq ((hstep.2.2 st hst hid).trans
        (ratingsForStore_length_eq_distinct _ s hstep.1))
    | cons b2 bs2 =>
      have ih2 := ih ((postRatingsHandler db sess b).2)
        (fun x hx => hb x (List.mem_cons_of_mem b hx)) (by simp) hstep.1
      simpa [submitAll, List.foldl_cons] using ih2

def secondRatingBody : RatingBody := ⟨none, 1, ⟨4, 1⟩, some "ok"⟩

theorem repeated_submission_one_row_witness :
    uniqueUserStore (submitAll userSession [fiveRatingBody, secondRatingBody] oneStoreDB) ∧
    countUserStore (submitAll userSession [fiveRatingBody, secondRatingBody] oneStoreDB) 1 1 = 1 ∧
    (⟨1, "S", "store@example.com", "addr", 1, "4.00", 1⟩ : Store).totalRatings
      ≤ distinctRaters (submitAll userSession [fiveRatingBody, secondRatingBody] oneStoreDB) 1 := by
  have h := repeated_submission_one_row oneStoreDB userSession 1 1
    [fiveRatingBody, secondRatingBody] rfl (by decide) (by decide) (by decide)
    (by unfold uniqueUserStore; decide)
  exact ⟨h.1, h.2.1, h.2.2 ⟨1, "S", "store@example.com", "addr", 1, "4.00", 1⟩
    (by decide) (by decide)⟩
